import Mathlib

/-
Verification development for the noiceguard real-time noise-suppression core.

The per-frame DSP chain (RNNoiseWrapper in native/src/rnnoise_wrapper.cpp,
richer "adaptive-floor / hold-timer / spectral-clamp" version, the one the
production header declares) and the AudioEngine lifecycle (audio.cpp) are
shallowly embedded below.  Samples and float scalars are modelled as exact
rationals; the neural denoiser and the square root used by computeRms are
external black boxes and enter as oracle parameters; atomics collapse to
plain record fields because every cell has a single writer.
-/

namespace noiseguard

/-- RNNoise operates on exactly 480 samples per frame (10ms at 48kHz). -/
def kRNNoiseFrameSize : Nat := 480

/-- Gate CLOSE coefficient. -/
def kGateCloseCoeff : ℚ := 0.40

/-- Gate OPEN coefficient. -/
def kGateOpenCoeff : ℚ := 0.15

/-- Gate closes to absolute zero. -/
def kMinGateGain : ℚ := 0.0

/-- HOLD TIME: frames to keep the gate open after the last speech frame. -/
def kHoldFrames : Int := 15

/-- VAD hysteresis band. -/
def kVadHysteresis : ℚ := 0.12

/-- Calibration period: 200 frames. -/
def kCalibrationPeriod : Nat := 200

/-- Fast EMA alpha during calibration. -/
def kCalibrationAlpha : ℚ := 0.08

/-- Slow EMA alpha after calibration. -/
def kTrackingAlpha : ℚ := 0.005

/-- Gate threshold multiplier over the learned noise floor. -/
def kFloorMultiplier : ℚ := 1.5

/-- Absolute minimum noise floor. -/
def kAbsoluteMinFloor : ℚ := 0.0003

/-- Fallback gate threshold before the floor is calibrated. -/
def kFallbackThreshold : ℚ := 0.002

/-- Spectral clamp multiplier. -/
def kSpectralClampMult : ℚ := 2.0

/-- Gate gain threshold for applying the spectral clamp. -/
def kClampGateThreshold : ℚ := 0.3

/-- Comfort noise amplitude. -/
def kSoftSilenceLevel : ℚ := 0.001

/-- One-pole lowpass shaping coefficient for comfort noise. -/
def kNoiseShapeCoeff : ℚ := 0.7

/-- Gate gain below which soft silence is injected. -/
def kSoftSilenceGateThresh : ℚ := 0.1

/-- std::clamp over rationals. -/
def clampQ (v lo hi : ℚ) : ℚ := if v < lo then lo else if hi < v then hi else v

/-- 2nd-order IIR biquad filter, Direct Form I (rnnoise_wrapper.h). -/
structure BiquadState where
  b0 : ℚ
  b1 : ℚ
  b2 : ℚ
  a1 : ℚ
  a2 : ℚ
  x1 : ℚ
  x2 : ℚ
  y1 : ℚ
  y2 : ℚ

/-- BiquadState::reset zeroes the delay cells. -/
def BiquadState.reset (s : BiquadState) : BiquadState :=
  { s with x1 := 0, x2 := 0, y1 := 0, y2 := 0 }

/-- BiquadState::process: one Direct Form I step; returns the output sample
and the advanced filter state. -/
def BiquadState.process (s : BiquadState) (x : ℚ) : ℚ × BiquadState :=
  let y := s.b0 * x + s.b1 * s.x1 + s.b2 * s.x2 - s.a1 * s.y1 - s.a2 * s.y2
  (y, { s with x2 := s.x1, x1 := x, y2 := s.y1, y1 := y })

/-- Real-time metrics (AudioMetrics): atomic cells with a single writer,
modelled as plain fields. -/
structure AudioMetrics where
  inputRms : ℚ
  outputRms : ℚ
  vadProbability : ℚ
  currentGain : ℚ
  noiseFloor : ℚ
  framesProcessed : Nat

/-- RNNoiseWrapper state.  The two opaque DenoiseState handles are modelled
by the booleans stateOk and state2Ok (null pointer = false). -/
structure RNNoiseWrapper where
  stateOk : Bool
  state2Ok : Bool
  suppressionLevel : ℚ
  vadThreshold : ℚ
  comfortNoiseEnabled : Bool
  smoothGain : ℚ
  holdCounter : Int
  noiseFloorEstimate : ℚ
  calibrationFrames : Nat
  hpf : BiquadState
  lpf : BiquadState
  noiseState : Nat
  prevNoise : ℚ
  metrics : AudioMetrics

/-- RNNoiseWrapper::computeRms, with the float sqrt supplied as an oracle:
sqrt of (sum of squares divided by length). -/
def computeRms (sqrtFn : ℚ → ℚ) (buf : List ℚ) : ℚ :=
  sqrtFn ((buf.foldl (fun sum x => sum + x * x) 0) / (buf.length : ℚ))

/-- RNNoiseWrapper::updateNoiseFloor.  A frame qualifies as pure noise when
vad < vadThreshold * 0.5; non-qualifying frames only re-publish the current
estimate.  Qualifying frames run the EMA (fast alpha while calibrating),
seed from postRms when the estimate is not positive, and clamp the estimate
up to the absolute minimum floor before publishing. -/
def updateNoiseFloor (w : RNNoiseWrapper) (postRms vad : ℚ) : RNNoiseWrapper :=
  if vad < w.vadThreshold * 0.5 then
    let alpha := if w.calibrationFrames < kCalibrationPeriod then kCalibrationAlpha
                 else kTrackingAlpha
    let calib := if w.calibrationFrames < kCalibrationPeriod then w.calibrationFrames + 1
                 else w.calibrationFrames
    let est0 := if w.noiseFloorEstimate ≤ 0 then postRms
                else w.noiseFloorEstimate + alpha * (postRms - w.noiseFloorEstimate)
    let est := max est0 kAbsoluteMinFloor
    { w with
      calibrationFrames := calib
      noiseFloorEstimate := est
      metrics := { w.metrics with noiseFloor := est } }
  else
    { w with metrics := { w.metrics with noiseFloor := w.noiseFloorEstimate } }

/-- RNNoiseWrapper::computeGateTarget.  Returns the target gain together
with the wrapper whose hold counter has been advanced. -/
def computeGateTarget (w : RNNoiseWrapper) (vad postRms : ℚ) : ℚ × RNNoiseWrapper :=
  let gateThresh := if kAbsoluteMinFloor < w.noiseFloorEstimate
                    then w.noiseFloorEstimate * kFloorMultiplier
                    else kFallbackThreshold
  let speechByVad := w.vadThreshold ≤ vad
  let speechByEnergy := (w.vadThreshold - kVadHysteresis ≤ vad) ∧ (gateThresh * 2.0 < postRms)
  if speechByVad ∨ speechByEnergy then
    (1.0, { w with holdCounter := kHoldFrames })
  else if 0 < w.holdCounter then
    (1.0, { w with holdCounter := w.holdCounter - 1 })
  else if postRms < gateThresh then
    (kMinGateGain, w)
  else
    (clampQ ((postRms - gateThresh) / max gateThresh 0.0001) kMinGateGain 0.5, w)

/-- RNNoiseWrapper::spectralClamp: forces samples below the adaptive
threshold to exact zero, only when VAD is low and the gate mostly closed. -/
def spectralClamp (w : RNNoiseWrapper) (frame : List ℚ) (vad : ℚ) : List ℚ :=
  if w.vadThreshold ≤ vad ∨ kClampGateThreshold < w.smoothGain then frame
  else
    let clampThresh := max (w.noiseFloorEstimate * kSpectralClampMult) (kAbsoluteMinFloor * 3.0)
    frame.map (fun x => if |x| < clampThresh then 0 else x)

/-- RNNoiseWrapper::comfortNoiseSample: xorshift32 LFSR step plus one-pole
shaping; returns the scaled sample, the new LFSR state (kept below 2^32)
and the new shaping history. -/
def comfortNoiseSample (noiseState : Nat) (prevNoise : ℚ) : ℚ × Nat × ℚ :=
  let s1 : Nat := (noiseState ^^^ (noiseState <<< 13)) % 2 ^ 32
  let s2 : Nat := s1 ^^^ (s1 >>> 17)
  let s3 : Nat := (s2 ^^^ (s2 <<< 5)) % 2 ^ 32
  let signed : Int := if s3 < 2 ^ 31 then (s3 : Int) else (s3 : Int) - 2 ^ 32
  let white : ℚ := (signed : ℚ) / 2147483648
  let shaped := kNoiseShapeCoeff * prevNoise + (1 - kNoiseShapeCoeff) * white
  (shaped * kSoftSilenceLevel, s3, shaped)

/-- Helper threading the LFSR and shaping state through a frame while
adding scaled comfort noise to each sample. -/
def softSilenceGo (scale : ℚ) : List ℚ → Nat → ℚ → List ℚ × Nat × ℚ
  | [], ns, pn => ([], ns, pn)
  | x :: xs, ns, pn =>
    let c := comfortNoiseSample ns pn
    let rest := softSilenceGo scale xs c.2.1 c.2.2
    ((x + c.1 * scale) :: rest.1, rest.2.1, rest.2.2)

/-- RNNoiseWrapper::applySoftSilence: injects shaped comfort noise when the
gate is nearly closed, scaling up as the gain approaches zero. -/
def applySoftSilence (w : RNNoiseWrapper) (frame : List ℚ) : List ℚ × RNNoiseWrapper :=
  if w.comfortNoiseEnabled = false then (frame, w)
  else if kSoftSilenceGateThresh ≤ w.smoothGain then (frame, w)
  else
    let scale := (kSoftSilenceGateThresh - w.smoothGain) / kSoftSilenceGateThresh
    let r := softSilenceGo scale frame w.noiseState w.prevNoise
    (r.1, { w with noiseState := r.2.1, prevNoise := r.2.2 })

/-- Runs each sample through the HPF then the LPF, threading both filter
states down the frame (step 5 of processFrame). -/
def applyFilters (hpf lpf : BiquadState) : List ℚ → List ℚ × BiquadState × BiquadState
  | [] => ([], hpf, lpf)
  | x :: xs =>
    let p1 := hpf.process x
    let p2 := lpf.process p1.1
    let rest := applyFilters p1.2 p2.2 xs
    (p2.1 :: rest.1, rest.2)

/-- External black boxes of the frame pipeline: the two independent RNNoise
passes (each returning the denoised frame and a VAD probability) and the
square root used by computeRms. -/
structure Oracle where
  rnnoise1 : List ℚ → List ℚ × ℚ
  rnnoise2 : List ℚ → List ℚ × ℚ
  sqrtFn : ℚ → ℚ

/-- Fast path of RNNoiseWrapper::processFrame when suppression is off:
publish input and output RMS, zero VAD, unit gain, bump the frame counter,
return 0 and leave the frame untouched. -/
def processBypass (o : Oracle) (w : RNNoiseWrapper) (frame : List ℚ) :
    ℚ × List ℚ × RNNoiseWrapper :=
  let rms := computeRms o.sqrtFn frame
  (0, frame,
   { w with metrics :=
     { w.metrics with
       inputRms := rms
       outputRms := rms
       vadProbability := 0
       currentGain := 1
       framesProcessed := w.metrics.framesProcessed + 1 } })

/-- Active path of RNNoiseWrapper::processFrame (steps 1 to 13). -/
def processActive (o : Oracle) (w : RNNoiseWrapper) (frame : List ℚ) :
    ℚ × List ℚ × RNNoiseWrapper :=
  let level := w.suppressionLevel
  let inputRms := computeRms o.sqrtFn frame
  let w1 := { w with metrics := { w.metrics with inputRms := inputRms } }
  let original := frame
  let scaled := frame.map (fun x => x * 32767)
  let r1 := o.rnnoise1 scaled
  let r2 := o.rnnoise2 r1.1
  let vad := max r1.2 r2.2
  let w2 := { w1 with metrics := { w1.metrics with vadProbability := vad } }
  let unscaled := r2.1.map (fun x => x * (1 / 32767))
  let blended := if level < 1 then
      List.zipWith (fun x x0 => x * level + x0 * (1 - level)) unscaled original
    else unscaled
  let fr := applyFilters w2.hpf w2.lpf blended
  let w3 := { w2 with hpf := fr.2.1, lpf := fr.2.2 }
  let postRms := computeRms o.sqrtFn fr.1
  let w4 := updateNoiseFloor w3 postRms vad
  let gt := computeGateTarget w4 vad postRms
  let w5 := gt.2
  let coeff := if gt.1 < w5.smoothGain then kGateCloseCoeff else kGateOpenCoeff
  let sg := clampQ (w5.smoothGain + coeff * (gt.1 - w5.smoothGain)) kMinGateGain 1
  let w6 := { w5 with smoothGain := sg, metrics := { w5.metrics with currentGain := sg } }
  let gated := fr.1.map (fun x => x * sg)
  let clamped := spectralClamp w6 gated vad
  let ss := applySoftSilence w6 clamped
  let w7 := ss.2
  let outputRms := computeRms o.sqrtFn ss.1
  let w8 := { w7 with metrics :=
    { w7.metrics with
      outputRms := outputRms
      framesProcessed := w7.metrics.framesProcessed + 1 } }
  (vad, ss.1, w8)

/-- RNNoiseWrapper::processFrame: null-handle guard, then the bypass fast
path when the snapshotted suppression level is not positive, else the full
pipeline.  Returns (vad, output frame, new wrapper state). -/
def processFrame (o : Oracle) (w : RNNoiseWrapper) (frame : List ℚ) :
    ℚ × List ℚ × RNNoiseWrapper :=
  if w.stateOk = true ∧ w.state2Ok = true then
    if w.suppressionLevel ≤ 0 then processBypass o w frame
    else processActive o w frame
  else (0, frame, w)

/-- RNNoiseWrapper::initFilters: 48 kHz Butterworth coefficients for the
80 Hz HPF and 8 kHz LPF, both with freshly reset delay lines. -/
def initFilters (w : RNNoiseWrapper) : RNNoiseWrapper :=
  { w with
    hpf := BiquadState.reset
      { b0 := 0.992631
        b1 := -1.985261
        b2 := 0.992631
        a1 := -1.985199
        a2 := 0.985323
        x1 := 0, x2 := 0, y1 := 0, y2 := 0 }
    lpf := BiquadState.reset
      { b0 := 0.155029
        b1 := 0.310059
        b2 := 0.155029
        a1 := -0.620209
        a2 := 0.240326
        x1 := 0, x2 := 0, y1 := 0, y2 := 0 } }

/-- RNNoiseWrapper::init: recreate the two denoiser handles (their success
is decided by the external allocator, passed in as create1/create2), reset
the gate and comfort-noise state, reinitialise the filters, and zero the
metrics. -/
def RNNoiseWrapper.init (create1 create2 : Bool) (w : RNNoiseWrapper) : RNNoiseWrapper :=
  let w1 := { w with
    stateOk := create1
    state2Ok := create2
    smoothGain := 1.0
    holdCounter := 0
    noiseFloorEstimate := 0.0
    calibrationFrames := 0
    noiseState := 0x12345678
    prevNoise := 0.0 }
  let w2 := initFilters w1
  { w2 with metrics :=
    { inputRms := 0.0
      outputRms := 0.0
      vadProbability := 0.0
      currentGain := 1.0
      noiseFloor := 0.0
      framesProcessed := 0 } }

/-- Repeated processFrame calls (the processing worker feeding frames). -/
def runFrames (o : Oracle) (w : RNNoiseWrapper) : List (List ℚ) → RNNoiseWrapper
  | [] => w
  | f :: fs => runFrames o (processFrame o w f).2.2 fs

/-- The sequence of noiseFloor metric values published by successive
updateNoiseFloor calls, one per (postRms, vad) input pair. -/
def nfPublished (w : RNNoiseWrapper) : List (ℚ × ℚ) → List ℚ
  | [] => []
  | p :: rest =>
    let w1 := updateNoiseFloor w p.1 p.2
    w1.metrics.noiseFloor :: nfPublished w1 rest

/-- AudioConfig (audio.h). -/
structure AudioConfig where
  inputDeviceIndex : Int
  outputDeviceIndex : Int
  sampleRate : ℚ
  framesPerBuffer : Nat
  tryExclusiveMode : Bool

/-- PortAudio paNoDevice sentinel. -/
def paNoDevice : Int := -1

/-- Observable AudioEngine state: stream handles, ring buffers and denoiser
handles collapse to allocation flags, the PortAudio library to an init
nesting count, the processing thread to an activity flag. -/
structure EngineState where
  running : Bool
  shouldRestart : Bool
  config : AudioConfig
  captureStream : Bool
  outputStream : Bool
  captureRing : Bool
  outputRing : Bool
  rnn1 : Bool
  rnn2 : Bool
  paCount : Nat
  threadActive : Bool

/-- Outcomes of the external PortAudio / RNNoise calls made during start:
whether Pa_Initialize succeeds, the default device indices, whether each
rnnoise_create succeeds, whether each Pa_OpenStream attempt (exclusive and
shared fallback) succeeds, and whether each Pa_StartStream succeeds. -/
structure EngineEnv where
  paInitOk : Bool
  defaultInput : Int
  defaultOutput : Int
  create1 : Bool
  create2 : Bool
  openCaptureExcl : Bool
  openCaptureShared : Bool
  openOutputExcl : Bool
  openOutputShared : Bool
  startCapture : Bool
  startOutput : Bool

/-- Device index resolution in AudioEngine::openStreams: every negative
requested index is replaced by the backend's default device. -/
def resolveDeviceIndex (requested deflt : Int) : Int :=
  if requested < 0 then deflt else requested

/-- AudioEngine::openStreams: resolve devices, reject missing defaults,
open the capture stream (exclusive first, shared retry when the exclusive
attempt fails and exclusive mode was requested), then the output stream the
same way, closing the capture stream when the output open fails. -/
def AudioEngine.openStreams (env : EngineEnv) (cfg : AudioConfig) (s : EngineState) :
    EngineState × String :=
  let inputIdx := resolveDeviceIndex cfg.inputDeviceIndex env.defaultInput
  let outputIdx := resolveDeviceIndex cfg.outputDeviceIndex env.defaultOutput
  if inputIdx = paNoDevice then (s, "No input device available")
  else if outputIdx = paNoDevice then (s, "No output device available")
  else
    let capOk := if cfg.tryExclusiveMode = true
                 then env.openCaptureExcl || env.openCaptureShared
                 else env.openCaptureShared
    if capOk = false then (s, "Failed to open capture stream")
    else
      let s1 := { s with captureStream := true }
      let outOk := if cfg.tryExclusiveMode = true
                   then env.openOutputExcl || env.openOutputShared
                   else env.openOutputShared
      if outOk = false then ({ s1 with captureStream := false }, "Failed to open output stream")
      else ({ s1 with outputStream := true }, "")

/-- AudioEngine::start: reject when already running, initialise PortAudio,
allocate both rings, initialise the denoiser, open and start both streams
(tearing down streams, denoiser and PortAudio on the way out of each
failure), then mark running and launch the worker. -/
def AudioEngine.start (env : EngineEnv) (cfg : AudioConfig) (s : EngineState) :
    EngineState × String :=
  if s.running = true then (s, "Engine already running")
  else
    let s0 := { s with config := cfg }
    if env.paInitOk = false then (s0, "Pa_Initialize failed")
    else
      let s1 := { s0 with
        paCount := s0.paCount + 1
        captureRing := true
        outputRing := true
        rnn1 := env.create1
        rnn2 := env.create2 }
      if (env.create1 && env.create2) = false then
        ({ s1 with paCount := s1.paCount - 1 }, "RNNoise initialization failed")
      else
        let os := AudioEngine.openStreams env cfg s1
        if os.2 ≠ "" then
          ({ os.1 with rnn1 := false, rnn2 := false, paCount := os.1.paCount - 1 }, os.2)
        else
          let s2 := os.1
          if env.startCapture = false then
            ({ s2 with
               captureStream := false
               outputStream := false
               rnn1 := false
               rnn2 := false
               paCount := s2.paCount - 1 }, "Failed to start capture stream")
          else if env.startOutput = false then
            ({ s2 with
               captureStream := false
               outputStream := false
               rnn1 := false
               rnn2 := false
               paCount := s2.paCount - 1 }, "Failed to start output stream")
          else
            ({ s2 with running := true, threadActive := true }, "")

/-- AudioEngine::stop: early return when not running; otherwise clear the
running flag, join the worker, stop and close both streams, destroy the
denoiser, release both rings and terminate PortAudio. -/
def AudioEngine.stop (s : EngineState) : EngineState :=
  if s.running = false then s
  else
    { s with
      running := false
      threadActive := false
      captureStream := false
      outputStream := false
      rnn1 := false
      rnn2 := false
      captureRing := false
      outputRing := false
      paCount := s.paCount - 1 }

/-- AudioEngine::outputCallback, as a function of the fields it reads: when
the engine is not running it zero-fills the whole buffer; otherwise it
copies up to frameCount samples out of the output ring and zero-fills only
the shortfall.  It consults no device index and has no mute branch. -/
def AudioEngine.outputCallback (running : Bool) (outputRing : List ℚ) (frameCount : Nat) :
    List ℚ :=
  if running = false then List.replicate frameCount 0
  else
    let taken := outputRing.take frameCount
    taken ++ List.replicate (frameCount - taken.length) 0

/-- Gate-target function written from the words of the spec's Gate target
paragraph, for comparison against computeGateTarget: takes the current
vad_threshold, noise_floor and hold_counter, returns the target gain and
the new hold_counter. -/
def specGateTarget (vt nf : ℚ) (hold : Int) (vad postRms : ℚ) : ℚ × Int :=
  let gateThresh := if (0.0003 : ℚ) < nf then nf * 1.5 else 0.002
  if vt ≤ vad ∨ (vt - 0.12 ≤ vad ∧ 2 * gateThresh < postRms) then (1.0, 15)
  else if 0 < hold then (1.0, hold - 1)
  else if postRms < gateThresh then (0.0, hold)
  else (min (max ((postRms - gateThresh) / max gateThresh 0.0001) 0.0) 0.5, hold)

/-- Noise-floor update written from the words of the spec's Noise-floor
update paragraph, for comparison against updateNoiseFloor: takes the
current vad_threshold, noise_floor and calibration count, returns the new
noise_floor and calibration count. -/
def specNoiseFloorUpdate (vt nf : ℚ) (calib : Nat) (postRms vad : ℚ) : ℚ × Nat :=
  if vt / 2 ≤ vad then (nf, calib)
  else
    let alpha := if calib < 200 then (0.08 : ℚ) else 0.005
    let calib1 := if calib < 200 then calib + 1 else calib
    let nf1 := if nf ≤ 0 then postRms else nf + alpha * (postRms - nf)
    (max nf1 0.0003, calib1)

/-- Header-default biquad (identity coefficients, zero delays). -/
def bq0 : BiquadState :=
  { b0 := 1, b1 := 0, b2 := 0, a1 := 0, a2 := 0, x1 := 0, x2 := 0, y1 := 0, y2 := 0 }

/-- A wrapper carrying the header's member-initialiser defaults, with both
denoiser handles present. -/
def wrapper0 : RNNoiseWrapper :=
  { stateOk := true
    state2Ok := true
    suppressionLevel := 1.0
    vadThreshold := 0.65
    comfortNoiseEnabled := true
    smoothGain := 1.0
    holdCounter := 0
    noiseFloorEstimate := 0.0
    calibrationFrames := 0
    hpf := bq0
    lpf := bq0
    noiseState := 0x12345678
    prevNoise := 0.0
    metrics :=
      { inputRms := 0
        outputRms := 0
        vadProbability := 0
        currentGain := 1
        noiseFloor := 0
        framesProcessed := 0 } }

/-- A trivial stand-in for the external black boxes: identity denoiser
passes with zero VAD, identity square root. -/
def oracle0 : Oracle :=
  { rnnoise1 := fun f => (f, 0), rnnoise2 := fun f => (f, 0), sqrtFn := fun x => x }

lemma clampQ_eq_min_max (v lo hi : ℚ) (h : lo ≤ hi) :
    clampQ v lo hi = min (max v lo) hi := by
  unfold clampQ
  rcases lt_or_le v lo with h1 | h1
  · rw [if_pos h1, max_eq_right h1.le, min_eq_left h]
  · rw [if_neg (not_lt.mpr h1), max_eq_left h1]
    rcases lt_or_le hi v with h2 | h2
    · rw [if_pos h2, min_eq_right h2.le]
    · rw [if_neg (not_lt.mpr h2), min_eq_left h2]

lemma clampQ_bounds (v lo hi : ℚ) (h : lo ≤ hi) :
    lo ≤ clampQ v lo hi ∧ clampQ v lo hi ≤ hi := by
  rw [clampQ_eq_min_max v lo hi h]
  constructor
  · exact le_min (le_max_right v lo) h
  · exact min_le_right _ _

/-- Claim C9: on every fresh denoiser init the DSP state is reset:
frames_processed 0, smooth gain 1, hold counter 0, noise floor 0,
calibration count 0, comfort-noise LFSR seeded to 0x12345678, and all four
delay cells of each biquad zero. -/
theorem claim_C9_init_resets (create1 create2 : Bool) (w : RNNoiseWrapper) :
    (RNNoiseWrapper.init create1 create2 w).metrics.framesProcessed = 0 ∧
    (RNNoiseWrapper.init create1 create2 w).smoothGain = 1 ∧
    (RNNoiseWrapper.init create1 create2 w).holdCounter = 0 ∧
    (RNNoiseWrapper.init create1 create2 w).noiseFloorEstimate = 0 ∧
    (RNNoiseWrapper.init create1 create2 w).calibrationFrames = 0 ∧
    (RNNoiseWrapper.init create1 create2 w).noiseState = 0x12345678 ∧
    (RNNoiseWrapper.init create1 create2 w).hpf.x1 = 0 ∧
    (RNNoiseWrapper.init create1 create2 w).hpf.x2 = 0 ∧
    (RNNoiseWrapper.init create1 create2 w).hpf.y1 = 0 ∧
    (RNNoiseWrapper.init create1 create2 w).hpf.y2 = 0 ∧
    (RNNoiseWrapper.init create1 create2 w).lpf.x1 = 0 ∧
    (RNNoiseWrapper.init create1 create2 w).lpf.x2 = 0 ∧
    (RNNoiseWrapper.init create1 create2 w).lpf.y1 = 0 ∧
    (RNNoiseWrapper.init create1 create2 w).lpf.y2 = 0 := by
  refine ⟨?_, ?_, ?_, ?_, ?_, ?_, ?_, ?_, ?_, ?_, ?_, ?_, ?_, ?_⟩ <;>
    norm_num [RNNoiseWrapper.init, initFilters, BiquadState.reset]

/-- Claim C8: AudioEngine::stop is idempotent: a second stop is observably
a no-op, from every engine state. -/
theorem claim_C8_stop_idempotent (s : EngineState) :
    AudioEngine.stop (AudioEngine.stop s) = AudioEngine.stop s := by
  unfold AudioEngine.stop
  by_cases h : s.running = false <;> simp [h]

/-- Claim C1: computeGateTarget agrees with the spec's gate-target
description on both the returned target gain and the resulting hold
counter, for every state and every (vad, postRms) input. -/
theorem claim_C1_gate_target (w : RNNoiseWrapper) (vad postRms : ℚ) :
    (computeGateTarget w vad postRms).1
        = (specGateTarget w.vadThreshold w.noiseFloorEstimate w.holdCounter vad postRms).1 ∧
    (computeGateTarget w vad postRms).2.holdCounter
        = (specGateTarget w.vadThreshold w.noiseFloorEstimate w.holdCounter vad postRms).2 := by
  unfold computeGateTarget specGateTarget
  unfold kAbsoluteMinFloor kFloorMultiplier kFallbackThreshold kVadHysteresis kHoldFrames
    kMinGateGain
  dsimp only
  have hmul : ∀ g : ℚ, g * 2.0 < postRms ↔ 2 * g < postRms := by
    intro g; rw [mul_comm]; norm_num
  simp only [hmul, clampQ_eq_min_max _ (0.0 : ℚ) 0.5 (by norm_num)]
  split_ifs <;> simp_all

lemma updateNoiseFloor_published_eq (w : RNNoiseWrapper) (postRms vad : ℚ) :
    (updateNoiseFloor w postRms vad).metrics.noiseFloor
      = (updateNoiseFloor w postRms vad).noiseFloorEstimate := by
  unfold updateNoiseFloor
  split <;> rfl

lemma updateNoiseFloor_estimate_persists (w : RNNoiseWrapper) (postRms vad : ℚ)
    (h : kAbsoluteMinFloor ≤ w.noiseFloorEstimate) :
    kAbsoluteMinFloor ≤ (updateNoiseFloor w postRms vad).noiseFloorEstimate := by
  unfold updateNoiseFloor
  split
  · exact le_max_right _ _
  · exact h

lemma updateNoiseFloor_estimate_qualifying (w : RNNoiseWrapper) (postRms vad : ℚ)
    (h : vad < w.vadThreshold * 0.5) :
    kAbsoluteMinFloor ≤ (updateNoiseFloor w postRms vad).noiseFloorEstimate := by
  unfold updateNoiseFloor
  rw [if_pos h]
  exact le_max_right _ _

lemma nfPublished_all_ge (inputs : List (ℚ × ℚ)) :
    ∀ w : RNNoiseWrapper, kAbsoluteMinFloor ≤ w.noiseFloorEstimate →
      ∀ x ∈ nfPublished w inputs, kAbsoluteMinFloor ≤ x := by
  induction inputs with
  | nil => intro w _ x hx; simp [nfPublished] at hx
  | cons p rest ih =>
    intro w hw x hx
    rw [nfPublished] at hx
    rcases List.mem_cons.mp hx with h1 | h1
    · rw [h1, updateNoiseFloor_published_eq]
      exact updateNoiseFloor_estimate_persists w p.1 p.2 hw
    · exact ih (updateNoiseFloor w p.1 p.2)
        (updateNoiseFloor_estimate_persists w p.1 p.2 hw) x h1

/-- Claim C2: updateNoiseFloor agrees with the spec's noise-floor
description (skip and keep estimate and calibration count when
vad is at least half the threshold, fast or slow EMA with seeding and the
0.0003 clamp otherwise), the published metric always equals the resulting
estimate, and from the first qualifying noise frame on every published
noise floor is at least 0.0003. -/
theorem claim_C2_noise_floor (w : RNNoiseWrapper) (postRms vad : ℚ) :
    ((updateNoiseFloor w postRms vad).noiseFloorEstimate,
       (updateNoiseFloor w postRms vad).calibrationFrames)
        = specNoiseFloorUpdate w.vadThreshold w.noiseFloorEstimate w.calibrationFrames
            postRms vad ∧
    (updateNoiseFloor w postRms vad).metrics.noiseFloor
        = (updateNoiseFloor w postRms vad).noiseFloorEstimate ∧
    (vad < w.vadThreshold / 2 →
      ∀ rest : List (ℚ × ℚ),
        ∀ x ∈ (updateNoiseFloor w postRms vad).metrics.noiseFloor ::
                nfPublished (updateNoiseFloor w postRms vad) rest,
          (0.0003 : ℚ) ≤ x) := by
  have hhalf : w.vadThreshold * 0.5 = w.vadThreshold / 2 := by ring
  refine ⟨?_, updateNoiseFloor_published_eq w postRms vad, ?_⟩
  · unfold updateNoiseFloor specNoiseFloorUpdate kCalibrationPeriod kCalibrationAlpha
      kTrackingAlpha kAbsoluteMinFloor
    dsimp only
    rw [hhalf]
    rcases lt_or_le vad (w.vadThreshold / 2) with h | h
    · rw [if_pos h, if_neg (not_le.mpr h)]
    · rw [if_neg (not_lt.mpr h), if_pos h]
  · intro h rest x hx
    have hq : vad < w.vadThreshold * 0.5 := by rw [hhalf]; exact h
    have hest : kAbsoluteMinFloor ≤ (updateNoiseFloor w postRms vad).noiseFloorEstimate :=
      updateNoiseFloor_estimate_qualifying w postRms vad hq
    have hmin : (0.0003 : ℚ) = kAbsoluteMinFloor := by norm_num [kAbsoluteMinFloor]
    rw [hmin]
    rcases List.mem_cons.mp hx with h1 | h1
    · rw [h1, updateNoiseFloor_published_eq]; exact hest
    · exact nfPublished_all_ge rest (updateNoiseFloor w postRms vad) hest x h1

/-- Witness for claim C2 at a concrete qualifying noise frame. -/
theorem claim_C2_noise_floor_witness :
    (0 : ℚ) < wrapper0.vadThreshold / 2 ∧
    (0.0003 : ℚ) ≤ (updateNoiseFloor wrapper0 0 0).metrics.noiseFloor := by
  constructor
  · norm_num [wrapper0]
  · exact (claim_C2_noise_floor wrapper0 0 0).2.2 (by norm_num [wrapper0]) []
      ((updateNoiseFloor wrapper0 0 0).metrics.noiseFloor) (List.mem_cons_self _ _)

/-- Claim C3: with the snapshotted suppression level at or below zero,
processFrame leaves the frame bit-exact unchanged, publishes the frame RMS
as both input and output RMS, publishes zero VAD and unit gate gain, bumps
frames_processed by one and returns 0. -/
theorem claim_C3_bypass (o : Oracle) (w : RNNoiseWrapper) (frame : List ℚ)
    (h1 : w.stateOk = true) (h2 : w.state2Ok = true) (h3 : w.suppressionLevel ≤ 0) :
    (processFrame o w frame).1 = 0 ∧
    (processFrame o w frame).2.1 = frame ∧
    (processFrame o w frame).2.2.metrics.inputRms = computeRms o.sqrtFn frame ∧
    (processFrame o w frame).2.2.metrics.outputRms = computeRms o.sqrtFn frame ∧
    (processFrame o w frame).2.2.metrics.vadProbability = 0 ∧
    (processFrame o w frame).2.2.metrics.currentGain = 1 ∧
    (processFrame o w frame).2.2.metrics.framesProcessed = w.metrics.framesProcessed + 1 := by
  unfold processFrame
  rw [if_pos ⟨h1, h2⟩, if_pos h3]
  unfold processBypass
  exact ⟨rfl, rfl, rfl, rfl, rfl, rfl, rfl⟩

/-- Witness for claim C3 on a concrete one-sample frame with suppression 0. -/
theorem claim_C3_bypass_witness :
    ({ wrapper0 with suppressionLevel := 0 } : RNNoiseWrapper).suppressionLevel ≤ 0 ∧
    (processFrame oracle0 { wrapper0 with suppressionLevel := 0 } [1]).2.1 = [1] ∧
    (processFrame oracle0 { wrapper0 with suppressionLevel := 0 } [1]).1 = 0 := by
  refine ⟨by norm_num [wrapper0], ?_, ?_⟩
  · exact (claim_C3_bypass oracle0 _ [1] rfl rfl (by norm_num [wrapper0])).2.1
  · exact (claim_C3_bypass oracle0 _ [1] rfl rfl (by norm_num [wrapper0])).1

/-- Claim C10: the bypass path leaves the whole gate and filter state
untouched (smooth gain, hold counter, noise-floor estimate, calibration
count, comfort-noise LFSR and shaping history, both biquads) and does not
write the noiseFloor metric. -/
theorem claim_C10_bypass_state (o : Oracle) (w : RNNoiseWrapper) (frame : List ℚ)
    (h1 : w.stateOk = true) (h2 : w.state2Ok = true) (h3 : w.suppressionLevel ≤ 0) :
    (processFrame o w frame).2.2.smoothGain = w.smoothGain ∧
    (processFrame o w frame).2.2.holdCounter = w.holdCounter ∧
    (processFrame o w frame).2.2.noiseFloorEstimate = w.noiseFloorEstimate ∧
    (processFrame o w frame).2.2.calibrationFrames = w.calibrationFrames ∧
    (processFrame o w frame).2.2.noiseState = w.noiseState ∧
    (processFrame o w frame).2.2.prevNoise = w.prevNoise ∧
    (processFrame o w frame).2.2.hpf = w.hpf ∧
    (processFrame o w frame).2.2.lpf = w.lpf ∧
    (processFrame o w frame).2.2.metrics.noiseFloor = w.metrics.noiseFloor := by
  unfold processFrame
  rw [if_pos ⟨h1, h2⟩, if_pos h3]
  unfold processBypass
  exact ⟨rfl, rfl, rfl, rfl, rfl, rfl, rfl, rfl, rfl⟩

/-- Witness for claim C10 on a concrete one-sample frame. -/
theorem claim_C10_bypass_state_witness :
    ({ wrapper0 with suppressionLevel := 0 } : RNNoiseWrapper).suppressionLevel ≤ 0 ∧
    (processFrame oracle0 { wrapper0 with suppressionLevel := 0 } [1]).2.2.metrics.noiseFloor
      = ({ wrapper0 with suppressionLevel := 0 } : RNNoiseWrapper).metrics.noiseFloor := by
  refine ⟨by norm_num [wrapper0], ?_⟩
  exact (claim_C10_bypass_state oracle0 _ [1] rfl rfl (by norm_num [wrapper0])).2.2.2.2.2.2.2.2

lemma updateNoiseFloor_frames (w : RNNoiseWrapper) (postRms vad : ℚ) :
    (updateNoiseFloor w postRms vad).metrics.framesProcessed = w.metrics.framesProcessed := by
  unfold updateNoiseFloor
  split <;> rfl

lemma updateNoiseFloor_smooth (w : RNNoiseWrapper) (postRms vad : ℚ) :
    (updateNoiseFloor w postRms vad).smoothGain = w.smoothGain := by
  unfold updateNoiseFloor
  split <;> rfl

lemma computeGateTarget_metrics (w : RNNoiseWrapper) (vad postRms : ℚ) :
    (computeGateTarget w vad postRms).2.metrics = w.metrics := by
  unfold computeGateTarget
  dsimp only
  split_ifs <;> rfl

lemma computeGateTarget_smooth (w : RNNoiseWrapper) (vad postRms : ℚ) :
    (computeGateTarget w vad postRms).2.smoothGain = w.smoothGain := by
  unfold computeGateTarget
  dsimp only
  split_ifs <;> rfl

lemma applySoftSilence_metrics (w : RNNoiseWrapper) (frame : List ℚ) :
    (applySoftSilence w frame).2.metrics = w.metrics := by
  unfold applySoftSilence
  dsimp only
  split_ifs <;> rfl

lemma processActive_framesProcessed (o : Oracle) (w : RNNoiseWrapper) (frame : List ℚ) :
    (processActive o w frame).2.2.metrics.framesProcessed
      = w.metrics.framesProcessed + 1 := by
  simp [processActive, applySoftSilence_metrics, computeGateTarget_metrics,
    updateNoiseFloor_frames]

lemma processActive_gain_clamped (o : Oracle) (w : RNNoiseWrapper) (frame : List ℚ) :
    ∃ v : ℚ, (processActive o w frame).2.2.metrics.currentGain = clampQ v kMinGateGain 1 := by
  unfold processActive
  dsimp only
  simp only [applySoftSilence_metrics]
  exact ⟨_, rfl⟩

lemma processActive_gain_bounds (o : Oracle) (w : RNNoiseWrapper) (frame : List ℚ) :
    0 ≤ (processActive o w frame).2.2.metrics.currentGain ∧
    (processActive o w frame).2.2.metrics.currentGain ≤ 1 := by
  obtain ⟨v, hv⟩ := processActive_gain_clamped o w frame
  rw [hv]
  have h := clampQ_bounds v kMinGateGain 1 (by norm_num [kMinGateGain])
  exact ⟨le_trans (by norm_num [kMinGateGain]) h.1, h.2⟩

/-- Claim C5 (amended): frames_processed goes up by exactly one per call
whenever both denoiser handles are present; with a null handle the call
returns 0 and leaves the frame, the state and the metrics untouched; in
every case frames_processed is monotonically non-decreasing. -/
theorem claim_C5_frames_processed (o : Oracle) (w : RNNoiseWrapper) (frame : List ℚ) :
    (w.stateOk = true → w.state2Ok = true →
       (processFrame o w frame).2.2.metrics.framesProcessed
         = w.metrics.framesProcessed + 1) ∧
    (¬ (w.stateOk = true ∧ w.state2Ok = true) → processFrame o w frame = (0, frame, w)) ∧
    w.metrics.framesProcessed ≤ (processFrame o w frame).2.2.metrics.framesProcessed := by
  unfold processFrame
  by_cases h : w.stateOk = true ∧ w.state2Ok = true
  · rw [if_pos h]
    by_cases h3 : w.suppressionLevel ≤ 0
    · rw [if_pos h3]
      exact ⟨fun _ _ => rfl, fun hc => absurd h hc, Nat.le_succ _⟩
    · rw [if_neg h3]
      refine ⟨fun _ _ => processActive_framesProcessed o w frame, fun hc => absurd h hc, ?_⟩
      rw [processActive_framesProcessed o w frame]
      exact Nat.le_succ _
  · rw [if_neg h]
    exact ⟨fun h1 h2 => absurd ⟨h1, h2⟩ h, fun _ => rfl, le_refl _⟩

/-- Witness for claim C5 (amended) at a concrete frame. -/
theorem claim_C5_frames_processed_witness :
    (processFrame oracle0 wrapper0 [1]).2.2.metrics.framesProcessed
      = wrapper0.metrics.framesProcessed + 1 :=
  (claim_C5_frames_processed oracle0 wrapper0 [1]).1 rfl rfl

/-- Counterexample to claim C5 as stated: in the null-handle state the
frame counter is not incremented (the call returns with all metrics
unchanged), so the unconditional increment-by-one fails. -/
theorem claim_C5_frames_processed_counterexample :
    ¬ ((processFrame oracle0 { wrapper0 with stateOk := false } [1]).2.2.metrics.framesProcessed
        = ({ wrapper0 with stateOk := false } : RNNoiseWrapper).metrics.framesProcessed + 1) := by
  simp [processFrame, wrapper0]

lemma processFrame_gain_cases (o : Oracle) (w : RNNoiseWrapper) (frame : List ℚ) :
    (0 ≤ (processFrame o w frame).2.2.metrics.currentGain ∧
       (processFrame o w frame).2.2.metrics.currentGain ≤ 1) ∨
    (processFrame o w frame).2.2.metrics.currentGain = w.metrics.currentGain := by
  unfold processFrame
  by_cases h : w.stateOk = true ∧ w.state2Ok = true
  · rw [if_pos h]
    by_cases h3 : w.suppressionLevel ≤ 0
    · rw [if_pos h3]
      left
      unfold processBypass
      constructor <;> norm_num
    · rw [if_neg h3]
      exact Or.inl (processActive_gain_bounds o w frame)
  · rw [if_neg h]
    exact Or.inr rfl

lemma runFrames_gain_invariant (o : Oracle) (frames : List (List ℚ)) :
    ∀ w : RNNoiseWrapper, 0 ≤ w.metrics.currentGain → w.metrics.currentGain ≤ 1 →
      0 ≤ (runFrames o w frames).metrics.currentGain ∧
      (runFrames o w frames).metrics.currentGain ≤ 1 := by
  induction frames with
  | nil => intro w hw1 hw2; exact ⟨hw1, hw2⟩
  | cons f fs ih =>
    intro w hw1 hw2
    rw [runFrames]
    rcases processFrame_gain_cases o w f with h | h
    · exact ih _ h.1 h.2
    · exact ih _ (h ▸ hw1) (h ▸ hw2)

/-- Claim C7: the gate gain published to metrics always lies in the unit
interval: any single processFrame call with live denoiser handles
publishes a gain in the unit interval (exactly 1 on the bypass path), and
along any sequence of calls from a state whose published gain is in the
unit interval it stays there. -/
theorem claim_C7_gain_in_unit (o : Oracle) (w : RNNoiseWrapper) (frame : List ℚ) :
    (w.stateOk = true → w.state2Ok = true →
       0 ≤ (processFrame o w frame).2.2.metrics.currentGain ∧
       (processFrame o w frame).2.2.metrics.currentGain ≤ 1 ∧
       (w.suppressionLevel ≤ 0 →
         (processFrame o w frame).2.2.metrics.currentGain = 1)) ∧
    (∀ frames : List (List ℚ),
       0 ≤ w.metrics.currentGain → w.metrics.currentGain ≤ 1 →
       0 ≤ (runFrames o w frames).metrics.currentGain ∧
       (runFrames o w frames).metrics.currentGain ≤ 1) := by
  constructor
  · intro h1 h2
    have hb : ∀ hx : w.suppressionLevel ≤ 0,
        (processFrame o w frame).2.2.metrics.currentGain = 1 := by
      intro hx
      unfold processFrame
      rw [if_pos ⟨h1, h2⟩, if_pos hx]
      rfl
    by_cases h3 : w.suppressionLevel ≤ 0
    · rw [hb h3]
      exact ⟨by norm_num, by norm_num, fun _ => rfl⟩
    · have := processActive_gain_bounds o w frame
      unfold processFrame
      rw [if_pos ⟨h1, h2⟩, if_neg h3]
      exact ⟨this.1, this.2, fun hc => absurd hc h3⟩
  · exact fun frames => runFrames_gain_invariant o frames w

/-- Witness for claim C7 at a concrete frame and state. -/
theorem claim_C7_gain_in_unit_witness :
    0 ≤ (processFrame oracle0 wrapper0 [1]).2.2.metrics.currentGain ∧
    (processFrame oracle0 wrapper0 [1]).2.2.metrics.currentGain ≤ 1 :=
  ⟨((claim_C7_gain_in_unit oracle0 wrapper0 [1]).1 rfl rfl).1,
   ((claim_C7_gain_in_unit oracle0 wrapper0 [1]).1 rfl rfl).2.1⟩

/-- Default engine configuration (audio.h / addon.cc). -/
def cfg0 : AudioConfig :=
  { inputDeviceIndex := -1
    outputDeviceIndex := -1
    sampleRate := 48000
    framesPerBuffer := 480
    tryExclusiveMode := true }

/-- A freshly constructed, stopped engine. -/
def engine0 : EngineState :=
  { running := false
    shouldRestart := false
    config := cfg0
    captureStream := false
    outputStream := false
    captureRing := false
    outputRing := false
    rnn1 := false
    rnn2 := false
    paCount := 0
    threadActive := false }

/-- An environment in which PortAudio comes up and the first denoiser
handle is created but the second rnnoise_create fails. -/
def envDenoiserFail : EngineEnv :=
  { paInitOk := true
    defaultInput := 0
    defaultOutput := 1
    create1 := true
    create2 := false
    openCaptureExcl := true
    openCaptureShared := true
    openOutputExcl := true
    openOutputShared := true
    startCapture := true
    startOutput := true }

/-- Claim C6 (amended): a failed start returns a non-empty error string,
leaves the engine not running with both streams closed, no worker thread
and the PortAudio init count restored; the ring buffers allocated before
the failure and a partially created denoiser state, however, are not
released by the failed start. -/
lemma openStreams_fail_state (env : EngineEnv) (cfg : AudioConfig) (s : EngineState)
    (hcs : s.captureStream = false) (hos : s.outputStream = false)
    (h : (AudioEngine.openStreams env cfg s).2 ≠ "") :
    (AudioEngine.openStreams env cfg s).1.running = s.running ∧
    (AudioEngine.openStreams env cfg s).1.captureStream = false ∧
    (AudioEngine.openStreams env cfg s).1.outputStream = false ∧
    (AudioEngine.openStreams env cfg s).1.paCount = s.paCount ∧
    (AudioEngine.openStreams env cfg s).1.threadActive = s.threadActive := by
  unfold AudioEngine.openStreams at h ⊢
  dsimp only at h ⊢
  split_ifs at h ⊢ <;> simp_all

lemma openStreams_ok_state (env : EngineEnv) (cfg : AudioConfig) (s : EngineState)
    (h : (AudioEngine.openStreams env cfg s).2 = "") :
    (AudioEngine.openStreams env cfg s).1.running = s.running ∧
    (AudioEngine.openStreams env cfg s).1.paCount = s.paCount ∧
    (AudioEngine.openStreams env cfg s).1.threadActive = s.threadActive := by
  unfold AudioEngine.openStreams at h ⊢
  dsimp only at h ⊢
  split_ifs at h ⊢ <;> simp_all

theorem claim_C6_start_unwind (env : EngineEnv) (cfg : AudioConfig) (s : EngineState)
    (h1 : s.running = false) (h2 : s.captureStream = false) (h3 : s.outputStream = false)
    (hfail : (AudioEngine.start env cfg s).2 ≠ "") :
    (AudioEngine.start env cfg s).1.running = false ∧
    (AudioEngine.start env cfg s).1.captureStream = false ∧
    (AudioEngine.start env cfg s).1.outputStream = false ∧
    (AudioEngine.start env cfg s).1.paCount = s.paCount ∧
    (AudioEngine.start env cfg s).1.threadActive = s.threadActive := by
  unfold AudioEngine.start at hfail ⊢
  dsimp only at hfail ⊢
  split_ifs at hfail ⊢ with hA hB hC hD hE hF
  · exact ⟨h1, h2, h3, rfl, rfl⟩
  · exact ⟨h1, h2, h3, rfl, rfl⟩
  · exact ⟨h1, h2, h3, by simp, rfl⟩
  · have hst := openStreams_fail_state env cfg
      { s with
        config := cfg
        paCount := s.paCount + 1
        captureRing := true
        outputRing := true
        rnn1 := env.create1
        rnn2 := env.create2 } h2 h3 hD
    refine ⟨hst.1.trans h1, hst.2.1, hst.2.2.1, ?_, hst.2.2.2.2⟩
    rw [hst.2.2.2.1]
    simp
  · have hst := openStreams_ok_state env cfg
      { s with
        config := cfg
        paCount := s.paCount + 1
        captureRing := true
        outputRing := true
        rnn1 := env.create1
        rnn2 := env.create2 } (not_not.mp hD)
    refine ⟨hst.1.trans h1, rfl, rfl, ?_, hst.2.2⟩
    rw [hst.2.1]
    simp
  · have hst := openStreams_ok_state env cfg
      { s with
        config := cfg
        paCount := s.paCount + 1
        captureRing := true
        outputRing := true
        rnn1 := env.create1
        rnn2 := env.create2 } (not_not.mp hD)
    refine ⟨hst.1.trans h1, rfl, rfl, ?_, hst.2.2⟩
    rw [hst.2.1]
    simp
  · exact absurd rfl hfail

/-- Witness for claim C6 (amended) at a concrete failing environment. -/
theorem claim_C6_start_unwind_witness :
    (AudioEngine.start envDenoiserFail cfg0 engine0).2 ≠ "" ∧
    (AudioEngine.start envDenoiserFail cfg0 engine0).1.running = false ∧
    (AudioEngine.start envDenoiserFail cfg0 engine0).1.paCount = engine0.paCount := by
  have h := claim_C6_start_unwind envDenoiserFail cfg0 engine0 rfl rfl rfl (by decide)
  exact ⟨by decide, h.1, h.2.2.2.1⟩

/-- Counterexample to claim C6 as stated: when the denoiser init fails the
start call returns a non-empty error, yet the ring buffers it allocated
(and the denoiser handle that was successfully created) survive, so the
failed start does not fully unwind every acquisition. -/
theorem claim_C6_start_unwind_counterexample :
    (AudioEngine.start envDenoiserFail cfg0 engine0).2 ≠ "" ∧
    engine0.captureRing = false ∧
    engine0.outputRing = false ∧
    (AudioEngine.start envDenoiserFail cfg0 engine0).1.captureRing = true ∧
    (AudioEngine.start envDenoiserFail cfg0 engine0).1.outputRing = true ∧
    (AudioEngine.start envDenoiserFail cfg0 engine0).1.rnn1 = true := by
  exact ⟨by decide, rfl, rfl, rfl, rfl, rfl⟩

/-- Claim C4 (evaluated at the failing input): with output_index equal to
-2 the engine resolves the output device to the backend default (here
device 5), but the running output callback copies the ring contents (here
the single sample 1) into its buffer instead of permanently writing zeros:
the buffer it produces is not the zero buffer. -/
theorem claim_C4_mute_output_bug :
    resolveDeviceIndex (-2) 5 = 5 ∧
    AudioEngine.outputCallback true [1] 1 = [1] ∧
    AudioEngine.outputCallback true [1] 1 ≠ [0] := by
  refine ⟨rfl, rfl, ?_⟩
  show ¬ ([(1 : ℚ)] = [0])
  simp

end noiseguard
